import Mathlib

/-!
Shallow embedding of the coffee-QRKH payment backend.

The repository ships several variants of the same two HTTP endpoints:
`src/server.js` (the bakong-khqr express server), `src/unnamed/part_002`
(an earlier bakong-khqr express server), `src/unnamed/part_003` (a
ts-khqr express server), and two stateless serverless handlers.  The
embedding below models, per variant, the in-memory order store
(`const ORDERS = {}`), the `POST /api/create-khqr` handler and the
`GET /api/check-payment/:orderId` handler.  External collaborators —
the KHQR codec (`BakongKHQR.generateIndividual` / `KHQR.generate`),
the md5 hash, the QR rasterizer, the clock/randomness behind
`generateOrderId`, and the Bakong settlement API response — are passed
in as explicit parameters; environment configuration
(`DEFAULT_CURRENCY`, `BAKONG_ACCOUNT_ID`, `BAKONG_TOKEN`) likewise.
JavaScript numbers are modelled as exact rationals, with `NaN` (the
result of `Number` coercion on non-numeric input) as an explicit extra
value.
-/

/-- A JS object used as a dictionary (`const ORDERS = {}`), keyed by
order id.  `set` is JS property assignment: replace the entry in place
if the key exists, append otherwise. -/
structure Store (α : Type) where
  entries : List (String × α)
  deriving DecidableEq

namespace Store

def lookupList {α : Type} : List (String × α) → String → Option α
  | [], _ => none
  | (k1, v1) :: rest, k => if k1 = k then some v1 else lookupList rest k

def setList {α : Type} : List (String × α) → String → α → List (String × α)
  | [], k, v => [(k, v)]
  | (k1, v1) :: rest, k, v =>
      if k1 = k then (k, v) :: rest else (k1, v1) :: setList rest k v

def lookup {α : Type} (s : Store α) (k : String) : Option α :=
  lookupList s.entries k

def set {α : Type} (s : Store α) (k : String) (v : α) : Store α :=
  ⟨setList s.entries k v⟩

end Store

/-- The result of JS `Number(x)` coercion: either a real numeric value
(modelled exactly as a rational) or `NaN` for non-numeric input. -/
inductive JSNum where
  | nan : JSNum
  | num : ℚ → JSNum
  deriving DecidableEq

/-- JS falsiness of a number: `!x` is true exactly for `NaN`, `0` and `-0`. -/
def JSNum.falsy : JSNum → Prop
  | .nan => True
  | .num q => q = 0

instance : (n : JSNum) → Decidable n.falsy
  | .nan => isTrue trivial
  | .num q => inferInstanceAs (Decidable (q = 0))

/-- JS `x <= 0` on a number: false for `NaN` (all NaN comparisons are false). -/
def JSNum.le0 : JSNum → Prop
  | .nan => False
  | .num q => q ≤ 0

instance : (n : JSNum) → Decidable n.le0
  | .nan => isFalse fun h => h
  | .num q => inferInstanceAs (Decidable (q ≤ 0))

/-- Numeric value of a `JSNum` on the non-NaN path (only used after the
`!amount || amount <= 0` guard has ruled NaN out). -/
def JSNum.val : JSNum → ℚ
  | .nan => 0
  | .num q => q

/-- JS `a || b` for an optional string `a`: the default is used when the
field is absent or the empty string (the only falsy strings). -/
def jsOrElse : Option String → String → String
  | none, d => d
  | some s, d => if s = "" then d else s

/-- JS `String.prototype.toUpperCase` (over the character list, so that
concrete instances reduce inside the kernel). -/
def jsToUpper (s : String) : String := ⟨s.data.map Char.toUpper⟩

/-- JS `String.prototype.includes` for a single-character needle, as in
`BAKONG_ACCOUNT_ID.includes("@")`. -/
def jsIncludes (s : String) (c : Char) : Bool := s.data.contains c

/-- An order record as stored by `server.js`:
`{ orderId, amount, currency, qrString, md5, status, createdAt }`. -/
structure Order where
  orderId : String
  amount : ℚ
  currency : String
  qrString : String
  md5 : String
  status : String
  createdAt : String
  deriving DecidableEq

/-- Result of the external KHQR codec (`khqr.generateIndividual`):
`failure` models `!result || result.status.code !== 0 || !result.data`,
`success` carries `result.data.qr` and `result.data.md5`. -/
inductive CodecResult where
  | failure : CodecResult
  | success : String → String → CodecResult
  deriving DecidableEq

/-- The `khqrData.currency.khr` and `khqrData.currency.usd` (ISO 4217
numeric codes) as passed to the codec. -/
def khqrCurrencyKhr : Nat := 116
def khqrCurrencyUsd : Nat := 840

/-- Outcome of the `POST /api/create-khqr` handler of `server.js`:
either the created order together with the currency code sent to the
codec, or an HTTP error status with its message. -/
inductive CreateResult where
  | ok : Order → Nat → CreateResult
  | error : Nat → String → CreateResult
  deriving DecidableEq

/-- The `POST /api/create-khqr` handler of `server.js` (lines 46-137).
`amount` is the body amount after `Number(amount || 0)` coercion;
`currency` is the raw body currency; `defaultCurrency` is the
`CURRENCY` env fallback (already uppercased); `accountId` is
`BAKONG_ACCOUNT_ID`; `orderId` is the `generateOrderId()` output;
`codec` is the external codec's result; `createdAt` is
`new Date().toISOString()`.  Returns the handler outcome and the
updated `ORDERS` store. -/
def createKhqr (store : Store Order) (amount : JSNum) (currency : Option String)
    (defaultCurrency accountId orderId : String) (codec : CodecResult)
    (createdAt : String) : CreateResult × Store Order :=
  if amount.falsy ∨ amount.le0 then
    (.error 400 "Invalid amount (must be > 0)", store)
  else if accountId = "" ∨ ¬ jsIncludes accountId '@' then
    (.error 500 "BAKONG_ACCOUNT_ID is not set or invalid. Example: yourid@aclb in .env",
      store)
  else
    let currencyCode := jsToUpper (jsOrElse currency defaultCurrency)
    let khqrCurrency := if currencyCode = "KHR" then khqrCurrencyKhr else khqrCurrencyUsd
    match codec with
    | .failure => (.error 500 "Failed to generate KHQR", store)
    | .success qr md5v =>
        let order : Order :=
          ⟨orderId, amount.val, currencyCode, qr, md5v, "PENDING", createdAt⟩
        (.ok order khqrCurrency, store.set orderId order)

/-- Response of the external Bakong settlement API
(`POST /v1/check_transaction_by_md5`), as consumed by the handlers:
`transportError` models `axios` throwing (network failure or non-2xx),
`noMatch` models a response failing the
`data && data.responseCode === 0 && data.data` guard, `matched` carries
`Number(data.data.amount)` and `data.data.currency` of a matched
settlement record. -/
inductive BakongResp where
  | transportError : BakongResp
  | noMatch : BakongResp
  | matched : JSNum → String → BakongResp
  deriving DecidableEq

/-- The amount half of the reconciliation guard of `server.js`:
`Math.abs(paidAmount - order.amount) < 0.0001`; false when the parsed
paid amount is `NaN`. -/
def amountWithinTol : JSNum → ℚ → Prop
  | .nan, _ => False
  | .num p, a => |p - a| < 1/10000

instance : (n : JSNum) → (a : ℚ) → Decidable (amountWithinTol n a)
  | .nan, _ => isFalse fun h => h
  | .num p, a => inferInstanceAs (Decidable (|p - a| < 1/10000))

/-- Outcome of the `GET /api/check-payment/:orderId` handler of
`server.js`: 404 for an unknown id, the in-memory fast path for an
already-PAID order, the degraded mode when no token is configured,
a 500 when the external call throws, or the normal checked response
`{ status, amount, currency }`. -/
inductive CheckResult where
  | notFound : CheckResult
  | paidFast : ℚ → String → CheckResult
  | pendingNoToken : CheckResult
  | serverError : CheckResult
  | checked : String → ℚ → String → CheckResult
  deriving DecidableEq

/-- The `status` field of the JSON body returned to the client, when
the response has one (404 and 500 responses carry only an error). -/
def CheckResult.statusOf : CheckResult → Option String
  | .notFound => none
  | .paidFast _ _ => some "PAID"
  | .pendingNoToken => some "PENDING"
  | .serverError => none
  | .checked s _ _ => some s

/-- HTTP status code of each `GET /api/check-payment` outcome. -/
def CheckResult.httpStatus : CheckResult → Nat
  | .notFound => 404
  | .paidFast _ _ => 200
  | .pendingNoToken => 200
  | .serverError => 500
  | .checked _ _ _ => 200

/-- The `GET /api/check-payment/:orderId` handler of `server.js`
(lines 140-216).  `token` is `BAKONG_TOKEN`; `resp` is the external
Bakong response the collaborator would give if called.  Returns the
handler outcome, the updated `ORDERS` store, and whether the external
collaborator was actually contacted (the `axios.post` call). -/
def checkPayment (store : Store Order) (token orderId : String) (resp : BakongResp) :
    CheckResult × Store Order × Bool :=
  match store.lookup orderId with
  | none => (.notFound, store, false)
  | some order =>
    if order.status = "PAID" then
      (.paidFast order.amount order.currency, store, false)
    else if token = "" ∨ token = "YOUR_BAKONG_API_TOKEN_HERE" then
      (.pendingNoToken, store, false)
    else
      match resp with
      | .transportError => (.serverError, store, true)
      | .noMatch => (.checked order.status order.amount order.currency, store, true)
      | .matched paidAmount paidCurrency =>
          if paidCurrency = order.currency ∧ amountWithinTol paidAmount order.amount then
            let order2 : Order := { order with status := "PAID" }
            (.checked order2.status order2.amount order2.currency,
              store.set orderId order2, true)
          else
            (.checked order.status order.amount order.currency, store, true)

/-- An order record as stored by the ts-khqr variant
`src/unnamed/part_003`: `{ orderId, amount, currency, khqrString, md5,
status }` (no `createdAt`). -/
structure OrderTs where
  orderId : String
  amount : ℚ
  currency : String
  khqrString : String
  md5 : String
  status : String
  deriving DecidableEq

/-- Outcome of the `POST /api/create-khqr` handler of
`src/unnamed/part_003`. -/
inductive CreateResultTs where
  | ok : OrderTs → CreateResultTs
  | error : Nat → String → CreateResultTs
  deriving DecidableEq

/-- JS `Math.round`: nearest integer, halves rounded toward positive
infinity, i.e. `Math.round(x) = Math.floor(x + 0.5)`. -/
def jsRound (q : ℚ) : ℤ := ⌊q + 1/2⌋

/-- The `POST /api/create-khqr` handler of `src/unnamed/part_003`
(lines 46-140).  The body `amount` is a JSON number (this variant does
not `Number()`-coerce it); `khqrQr` is the string extracted from the
ts-khqr codec result by the
`khqrResult?.data?.qr || khqrResult?.qr || khqrResult?.data || ""`
shape probing (`none` when every probe was falsy); `md5v` is the hex
digest `crypto.createHash("md5")` computes from that string. -/
def createKhqrTs (store : Store OrderTs) (amount : ℚ) (currency : Option String)
    (defaultCurrency accountId orderId : String) (khqrQr : Option String)
    (md5v : String) : CreateResultTs × Store OrderTs :=
  if amount = 0 ∨ amount ≤ 0 then
    (.error 400 "Invalid amount", store)
  else
    let cur := jsToUpper (jsOrElse currency defaultCurrency)
    if ¬ (cur = "USD" ∨ cur = "KHR") then
      (.error 400 "Currency must be USD or KHR", store)
    else if accountId = "" ∨ ¬ jsIncludes accountId '@' then
      (.error 500 "BAKONG_ACCOUNT_ID is not set correctly in .env (e.g. myname@aclb)",
        store)
    else
      let khqrAmount : ℚ := if cur = "KHR" then ((jsRound amount : ℤ) : ℚ) else amount
      let khqrString := jsOrElse khqrQr ""
      if khqrString = "" then
        (.error 500 "Failed to generate KHQR string (check ts-khqr version / result shape)",
          store)
      else
        let order : OrderTs := ⟨orderId, khqrAmount, cur, khqrString, md5v, "PENDING"⟩
        (.ok order, store.set orderId order)

/-- Outcome of the `GET /api/check-payment/:orderId` handler of
`src/unnamed/part_003`; the checked response carries only `status`. -/
inductive CheckResultTs where
  | notFound : CheckResultTs
  | paidFast : ℚ → String → CheckResultTs
  | pendingNoToken : CheckResultTs
  | serverError : CheckResultTs
  | checked : String → CheckResultTs
  deriving DecidableEq

/-- The `GET /api/check-payment/:orderId` handler of
`src/unnamed/part_003` (lines 143-213): same reconciliation guard as
`server.js` (currency string equality plus the 1e-4 amount
tolerance). -/
def checkPaymentTs (store : Store OrderTs) (token orderId : String) (resp : BakongResp) :
    CheckResultTs × Store OrderTs × Bool :=
  match store.lookup orderId with
  | none => (.notFound, store, false)
  | some order =>
    if order.status = "PAID" then
      (.paidFast order.amount order.currency, store, false)
    else if token = "" ∨ token = "YOUR_BAKONG_API_TOKEN_HERE" then
      (.pendingNoToken, store, false)
    else
      match resp with
      | .transportError => (.serverError, store, true)
      | .noMatch => (.checked order.status, store, true)
      | .matched paidAmount paidCurrency =>
          if paidCurrency = order.currency ∧ amountWithinTol paidAmount order.amount then
            let order2 : OrderTs := { order with status := "PAID" }
            (.checked order2.status, store.set orderId order2, true)
          else
            (.checked order.status, store, true)

/-- An order record as stored by `src/unnamed/part_002`:
`{ orderId, amount, currency, md5, status, createdAt }` (no
`qrString`). -/
structure Order2 where
  orderId : String
  amount : ℚ
  currency : String
  md5 : String
  status : String
  createdAt : String
  deriving DecidableEq

/-- The `GET /api/check-payment/:orderId` handler of
`src/unnamed/part_002` (lines 146-204): on any matched settlement
record (`data && data.responseCode === 0 && data.data`) it sets
`order.status = "PAID"` without comparing the returned amount or
currency against the stored order. -/
def checkPaymentV2 (store : Store Order2) (token orderId : String) (resp : BakongResp) :
    CheckResult × Store Order2 × Bool :=
  match store.lookup orderId with
  | none => (.notFound, store, false)
  | some order =>
    if order.status = "PAID" then
      (.paidFast order.amount order.currency, store, false)
    else if token = "" ∨ token = "YOUR_BAKONG_API_TOKEN_HERE" then
      (.pendingNoToken, store, false)
    else
      match resp with
      | .transportError => (.serverError, store, true)
      | .noMatch => (.checked order.status order.amount order.currency, store, true)
      | .matched _ _ =>
          let order2 : Order2 := { order with status := "PAID" }
          (.checked order2.status order2.amount order2.currency,
            store.set orderId order2, true)


/-- Every stored status is one of the two states of the order lifecycle
(all orders are created as PENDING and only ever flipped to PAID). -/
def statusesWF (store : Store Order) : Prop :=
  ∀ p ∈ store.entries, p.2.status = "PENDING" ∨ p.2.status = "PAID"

instance (store : Store Order) : Decidable (statusesWF store) :=
  inferInstanceAs (Decidable (∀ p ∈ store.entries,
    p.2.status = "PENDING" ∨ p.2.status = "PAID"))

/-- The property names a plain `{}` inherits from `Object.prototype`
in the default Node realm.  Reading any of these keys on `ORDERS`
yields a truthy value (a built-in function, or the prototype object
itself for `__proto__`) even though no order was ever registered under
them. -/
def objectPrototypeKeys : List String :=
  ["constructor", "hasOwnProperty", "isPrototypeOf", "propertyIsEnumerable",
   "toLocaleString", "toString", "valueOf", "__defineGetter__", "__defineSetter__",
   "__lookupGetter__", "__lookupSetter__", "__proto__"]

/-- Result of the JS property read `ORDERS[orderId]` on the plain
object store: an own entry when one was registered under the key,
the truthy value inherited from `Object.prototype` for its property
names, and `undefined` (the only falsy outcome) for every other key.
`Store.lookup` models only the own entries; `jsGet` is the full read. -/
inductive JsPropRead where
  | missing : JsPropRead  -- the read is `undefined`, the only falsy case
  | own : Order → JsPropRead
  | inherited : JsPropRead
  deriving DecidableEq

def jsGet (store : Store Order) (k : String) : JsPropRead :=
  match store.lookup k with
  | some o => .own o
  | none => if objectPrototypeKeys.contains k then .inherited else .missing

/-- Outcome of the `server.js` status check under the full JS property
read; `checkedInherited` is the 200 `{ ok: true }` response produced
when the looked-up value is an inherited prototype member, whose
`status`, `amount` and `currency` fields are all `undefined`. -/
inductive CheckResultJs where
  | notFound : CheckResultJs
  | paidFast : ℚ → String → CheckResultJs
  | pendingNoToken : CheckResultJs
  | serverError : CheckResultJs
  | checked : String → ℚ → String → CheckResultJs
  | checkedInherited : CheckResultJs
  deriving DecidableEq

/-- HTTP status code of each outcome under the full JS read. -/
def CheckResultJs.httpStatus : CheckResultJs → Nat
  | .notFound => 404
  | .serverError => 500
  | _ => 200

/-- The `GET /api/check-payment/:orderId` handler of `server.js` with
`ORDERS[orderId]` modelled as the full JS property read (`jsGet`).
On an own entry it behaves exactly like `checkPayment`.  On an
inherited `Object.prototype` member the `!order` test is false so the
404 branch is skipped; `order.status` is `undefined`, so the PAID fast
path (`undefined === "PAID"`) and the reconciliation guard
(`paidCurrency === undefined`) are both false, no store write happens,
and the handler answers 200 with undefined fields. -/
def checkPaymentJs (store : Store Order) (token orderId : String) (resp : BakongResp) :
    CheckResultJs × Store Order × Bool :=
  match jsGet store orderId with
  | .missing => (.notFound, store, false)
  | .own order =>
    if order.status = "PAID" then
      (.paidFast order.amount order.currency, store, false)
    else if token = "" ∨ token = "YOUR_BAKONG_API_TOKEN_HERE" then
      (.pendingNoToken, store, false)
    else
      match resp with
      | .transportError => (.serverError, store, true)
      | .noMatch => (.checked order.status order.amount order.currency, store, true)
      | .matched paidAmount paidCurrency =>
          if paidCurrency = order.currency ∧ amountWithinTol paidAmount order.amount then
            let order2 : Order := { order with status := "PAID" }
            (.checked order2.status order2.amount order2.currency,
              store.set orderId order2, true)
          else
            (.checked order.status order.amount order.currency, store, true)
  | .inherited =>
    if token = "" ∨ token = "YOUR_BAKONG_API_TOKEN_HERE" then
      (.pendingNoToken, store, false)
    else
      match resp with
      | .transportError => (.serverError, store, true)
      | .noMatch => (.checkedInherited, store, true)
      | .matched _ _ => (.checkedInherited, store, true)

/-!  Store lemmas used throughout the claim proofs. -/

namespace Store

theorem lookupList_setList_self {α : Type} (l : List (String × α)) (k : String) (v : α) :
    lookupList (setList l k v) k = some v := by
  induction l with
  | nil => simp [setList, lookupList]
  | cons hd tl ih =>
      obtain ⟨k1, v1⟩ := hd
      by_cases h : k1 = k
      · simp [setList, h, lookupList]
      · simp [setList, h, lookupList, ih]

theorem lookupList_setList_ne {α : Type} (l : List (String × α)) (k k2 : String) (v : α)
    (h : k ≠ k2) : lookupList (setList l k v) k2 = lookupList l k2 := by
  induction l with
  | nil => simp [setList, lookupList, fun hh => h hh]
  | cons hd tl ih =>
      obtain ⟨k1, v1⟩ := hd
      by_cases h1 : k1 = k
      · subst h1
        simp [setList, lookupList, fun hh => h hh]
      · by_cases h2 : k1 = k2
        · subst h2
          simp [setList, h1, lookupList, fun hh => h (Eq.symm hh)]
        · simp [setList, h1, lookupList, h2, ih]

theorem lookup_set_self {α : Type} (s : Store α) (k : String) (v : α) :
    (s.set k v).lookup k = some v := lookupList_setList_self s.entries k v

theorem lookup_set_ne {α : Type} (s : Store α) (k k2 : String) (v : α) (h : k ≠ k2) :
    (s.set k v).lookup k2 = s.lookup k2 := lookupList_setList_ne s.entries k k2 v h

theorem lookupList_mem {α : Type} (l : List (String × α)) (k : String) (v : α) :
    lookupList l k = some v → (k, v) ∈ l := by
  induction l with
  | nil => intro h; simp [lookupList] at h
  | cons hd tl ih =>
      obtain ⟨k1, v1⟩ := hd
      intro h
      by_cases h1 : k1 = k
      · subst h1
        simp [lookupList] at h
        subst h
        exact List.mem_cons_self _ _
      · simp [lookupList, h1] at h
        exact List.mem_cons_of_mem _ (ih h)

end Store


/-- C4: a creation request whose amount is non-numeric after `Number`
coercion (NaN) or `<= 0` is rejected by `server.js` with a 400
"Invalid amount" error, and the `ORDERS` store is unchanged (the
handler returns before the store assignment). -/
theorem createKhqr_invalidAmount (store : Store Order) (amount : JSNum)
    (currency : Option String) (defaultCurrency accountId orderId : String)
    (codec : CodecResult) (createdAt : String)
    (h : amount = JSNum.nan ∨ amount.le0) :
    createKhqr store amount currency defaultCurrency accountId orderId codec createdAt
      = (.error 400 "Invalid amount (must be > 0)", store) := by
  have hcond : amount.falsy ∨ amount.le0 := by
    rcases h with h | h
    · exact Or.inl (by rw [h]; trivial)
    · exact Or.inr h
  unfold createKhqr
  rw [if_pos hcond]

/-- Witness for C4: amount `-3` is rejected with a 400 and leaves an
empty store empty. -/
theorem createKhqr_invalidAmount_witness :
    createKhqr ⟨[]⟩ (.num (-3)) none "USD" "me@aclb" "CAFE-1" (.success "qr" "m5") "t"
      = (.error 400 "Invalid amount (must be > 0)", ⟨[]⟩) :=
  createKhqr_invalidAmount ⟨[]⟩ (.num (-3)) none "USD" "me@aclb" "CAFE-1"
    (.success "qr" "m5") "t" (Or.inr (show (-3 : ℚ) ≤ 0 by norm_num))

/-- C1 counterexample: the `check-payment` handler of
`src/unnamed/part_002` transitions a PENDING order to PAID on a matched
settlement record even when the returned currency ("KHR") differs from
the stored currency ("USD") and the returned amount (999) is nowhere
near the stored amount (5) — refuting the claimed "only if" direction
for that status check. -/
theorem checkPaymentV2_transitions_without_validation :
    ((checkPaymentV2 ⟨[("CAFE-1", ⟨"CAFE-1", 5, "USD", "m5", "PENDING", "t"⟩)]⟩
        "tok" "CAFE-1" (.matched (.num 999) "KHR")).2.1.lookup "CAFE-1").map Order2.status
      = some "PAID"
    ∧ ¬("KHR" = "USD" ∧ amountWithinTol (.num 999) 5) := by
  constructor
  · rfl
  · rintro ⟨h, _⟩
    exact absurd h (by decide)

/-- C1 (amended, `server.js`): for a registered PENDING order, with a
configured token, the status check on a matched settlement record
transitions the stored status to PAID exactly when the returned
currency equals the stored currency and the returned amount is within
1e-4 of the stored amount. -/
theorem checkPayment_paid_iff_match (store : Store Order) (token orderId : String)
    (o : Order) (p : ℚ) (c : String)
    (hl : store.lookup orderId = some o) (hs : o.status = "PENDING")
    (ht1 : token ≠ "") (ht2 : token ≠ "YOUR_BAKONG_API_TOKEN_HERE") :
    (((checkPayment store token orderId (.matched (.num p) c)).2.1.lookup orderId).map
        Order.status = some "PAID")
      ↔ (c = o.currency ∧ |p - o.amount| < 1/10000) := by
  have hs2 : ¬ o.status = "PAID" := by rw [hs]; decide
  have ht : ¬ (token = "" ∨ token = "YOUR_BAKONG_API_TOKEN_HERE") := by
    rintro (h | h)
    · exact ht1 h
    · exact ht2 h
  by_cases hg : c = o.currency ∧ amountWithinTol (.num p) o.amount
  · refine iff_of_true ?_ hg
    simp [checkPayment, hl, hs2, ht, hg, Store.lookup_set_self]
  · refine iff_of_false ?_ hg
    simp only [checkPayment, hl, if_neg hs2, if_neg ht, if_neg hg]
    simp [hl, hs]

/-- Witness for C1: a stored amount of `5.00` USD against a returned
amount that `Number("5.0001")` actually produces — the IEEE-754 double
`1407403031050951/281474976710656`, which lies strictly within 1e-4 of
5 — transitions the order to PAID. -/
theorem checkPayment_paid_iff_match_witness :
    ((checkPayment ⟨[("CAFE-1", ⟨"CAFE-1", 5, "USD", "qr", "m5", "PENDING", "t"⟩)]⟩
        "tok" "CAFE-1"
        (.matched (.num (1407403031050951/281474976710656)) "USD")).2.1.lookup
          "CAFE-1").map Order.status = some "PAID" :=
  (checkPayment_paid_iff_match
      ⟨[("CAFE-1", ⟨"CAFE-1", 5, "USD", "qr", "m5", "PENDING", "t"⟩)]⟩
      "tok" "CAFE-1" ⟨"CAFE-1", 5, "USD", "qr", "m5", "PENDING", "t"⟩
      (1407403031050951/281474976710656) "USD"
      (by decide) rfl (by decide) (by decide)).mpr ⟨rfl, by rw [abs_lt]; constructor <;> norm_num⟩

/-- C2: (i) running the `server.js` status check twice with the same
token and the same external response yields the same client-visible
status both times; (ii) for an order already stored as PAID the check
returns PAID with the stored amount and currency, leaves the store
unchanged and never contacts the external collaborator; (iii) once a
check reports PAID, every subsequent check — whatever the external
collaborator would answer — takes the fast path: it returns PAID with
the stored amount and currency, changes nothing, and makes no external
call. -/
theorem checkPayment_idempotent (store : Store Order) (token orderId : String)
    (resp : BakongResp) :
    ((checkPayment store token orderId resp).1.statusOf
        = (checkPayment (checkPayment store token orderId resp).2.1
            token orderId resp).1.statusOf)
    ∧ (∀ o : Order, store.lookup orderId = some o → o.status = "PAID" →
        checkPayment store token orderId resp
          = (.paidFast o.amount o.currency, store, false))
    ∧ ((checkPayment store token orderId resp).1.statusOf = some "PAID" →
        ∃ o2 : Order,
          (checkPayment store token orderId resp).2.1.lookup orderId = some o2 ∧
          ∀ resp2 : BakongResp,
            checkPayment (checkPayment store token orderId resp).2.1 token orderId resp2
              = (.paidFast o2.amount o2.currency,
                 (checkPayment store token orderId resp).2.1, false)) := by
  have part2 : ∀ o : Order, store.lookup orderId = some o → o.status = "PAID" →
      checkPayment store token orderId resp
        = (.paidFast o.amount o.currency, store, false) := by
    intro o ho hp
    simp [checkPayment, ho, hp]
  have main : ((checkPayment store token orderId resp).1.statusOf
        = (checkPayment (checkPayment store token orderId resp).2.1
            token orderId resp).1.statusOf)
      ∧ ((checkPayment store token orderId resp).1.statusOf = some "PAID" →
          ∃ o2 : Order,
            (checkPayment store token orderId resp).2.1.lookup orderId = some o2 ∧
            ∀ resp2 : BakongResp,
              checkPayment (checkPayment store token orderId resp).2.1 token orderId resp2
                = (.paidFast o2.amount o2.currency,
                   (checkPayment store token orderId resp).2.1, false)) := by
    cases hl : store.lookup orderId with
    | none =>
        have hr : checkPayment store token orderId resp = (.notFound, store, false) := by
          simp [checkPayment, hl]
        constructor
        · simp [hr]
        · intro h
          rw [hr] at h
          simp [CheckResult.statusOf] at h
    | some o =>
        by_cases hp : o.status = "PAID"
        · have hr : checkPayment store token orderId resp
              = (.paidFast o.amount o.currency, store, false) := by
            simp [checkPayment, hl, hp]
          constructor
          · simp [hr]
          · intro _
            refine ⟨o, by simp [hr, hl], fun resp2 => ?_⟩
            rw [hr]
            simp [checkPayment, hl, hp]
        · by_cases ht : token = "" ∨ token = "YOUR_BAKONG_API_TOKEN_HERE"
          · have hr : checkPayment store token orderId resp
                = (.pendingNoToken, store, false) := by
              simp [checkPayment, hl, hp, ht]
            constructor
            · simp [hr]
            · intro h
              rw [hr] at h
              simp [CheckResult.statusOf] at h
          · cases resp with
            | transportError =>
                have hr : checkPayment store token orderId .transportError
                    = (.serverError, store, true) := by
                  simp [checkPayment, hl, hp, ht]
                constructor
                · simp [hr]
                · intro h
                  rw [hr] at h
                  simp [CheckResult.statusOf] at h
            | noMatch =>
                have hr : checkPayment store token orderId .noMatch
                    = (.checked o.status o.amount o.currency, store, true) := by
                  simp [checkPayment, hl, hp, ht]
                constructor
                · simp [hr]
                · intro h
                  rw [hr] at h
                  simp [CheckResult.statusOf] at h
                  exact absurd h hp
            | matched pa pc =>
                by_cases hg : pc = o.currency ∧ amountWithinTol pa o.amount
                · have hset : (store.set orderId { o with status := "PAID" }).lookup orderId
                      = some { o with status := "PAID" } := Store.lookup_set_self _ _ _
                  have hr : checkPayment store token orderId (.matched pa pc)
                      = (.checked "PAID" o.amount o.currency,
                         store.set orderId { o with status := "PAID" }, true) := by
                    simp [checkPayment, hl, hp, ht, hg]
                  have hsecond : ∀ resp2 : BakongResp,
                      checkPayment (store.set orderId { o with status := "PAID" })
                          token orderId resp2
                        = (.paidFast o.amount o.currency,
                           store.set orderId { o with status := "PAID" }, false) := by
                    intro resp2
                    simp [checkPayment, hset]
                  constructor
                  · rw [hr]
                    simp [hsecond, CheckResult.statusOf]
                  · intro _
                    refine ⟨{ o with status := "PAID" }, ?_, fun resp2 => ?_⟩
                    · rw [hr]
                      exact hset
                    · rw [hr]
                      simp [hsecond]
                · have hr : checkPayment store token orderId (.matched pa pc)
                      = (.checked o.status o.amount o.currency, store, true) := by
                    simp [checkPayment, hl, hp, ht, hg]
                  constructor
                  · simp [hr]
                  · intro h
                    rw [hr] at h
                    simp [CheckResult.statusOf] at h
                    exact absurd h hp
  exact ⟨main.1, part2, main.2⟩

/-- Witness for C2: for a store holding a PAID order, the check takes
the fast path with no external call and leaves the store unchanged. -/
theorem checkPayment_idempotent_witness :
    checkPayment ⟨[("CAFE-1", ⟨"CAFE-1", 3/2, "USD", "qr", "m5", "PAID", "t"⟩)]⟩
        "tok" "CAFE-1" .noMatch
      = (.paidFast (3/2) "USD",
         ⟨[("CAFE-1", ⟨"CAFE-1", 3/2, "USD", "qr", "m5", "PAID", "t"⟩)]⟩, false) :=
  (checkPayment_idempotent
      ⟨[("CAFE-1", ⟨"CAFE-1", 3/2, "USD", "qr", "m5", "PAID", "t"⟩)]⟩
      "tok" "CAFE-1" .noMatch).2.1
    ⟨"CAFE-1", 3/2, "USD", "qr", "m5", "PAID", "t"⟩ rfl rfl

/-- C10: a status check mutates at most the `status` field: in both the
`server.js` and the `part_003` variants, every registered order keeps
its id, amount, currency, fingerprint, encoded payload and (where
present) creation timestamp across any status check, whatever the
external collaborator returns. -/
theorem checkPayment_frame :
    (∀ (store : Store Order) (token orderId : String) (resp : BakongResp)
        (k : String) (o : Order), store.lookup k = some o →
      ∃ o2 : Order, (checkPayment store token orderId resp).2.1.lookup k = some o2 ∧
        o2.orderId = o.orderId ∧ o2.amount = o.amount ∧ o2.currency = o.currency ∧
        o2.md5 = o.md5 ∧ o2.qrString = o.qrString ∧ o2.createdAt = o.createdAt)
    ∧ (∀ (store : Store OrderTs) (token orderId : String) (resp : BakongResp)
        (k : String) (o : OrderTs), store.lookup k = some o →
      ∃ o2 : OrderTs, (checkPaymentTs store token orderId resp).2.1.lookup k = some o2 ∧
        o2.orderId = o.orderId ∧ o2.amount = o.amount ∧ o2.currency = o.currency ∧
        o2.md5 = o.md5 ∧ o2.khqrString = o.khqrString) := by
  constructor
  · intro store token orderId resp k o hk
    cases hl : store.lookup orderId with
    | none => exact ⟨o, by simp [checkPayment, hl, hk], rfl, rfl, rfl, rfl, rfl, rfl⟩
    | some ord =>
        by_cases hp : ord.status = "PAID"
        · exact ⟨o, by simp [checkPayment, hl, hp, hk], rfl, rfl, rfl, rfl, rfl, rfl⟩
        · by_cases ht : token = "" ∨ token = "YOUR_BAKONG_API_TOKEN_HERE"
          · exact ⟨o, by simp [checkPayment, hl, hp, ht, hk], rfl, rfl, rfl, rfl, rfl, rfl⟩
          · cases resp with
            | transportError =>
                exact ⟨o, by simp [checkPayment, hl, hp, ht, hk], rfl, rfl, rfl, rfl, rfl, rfl⟩
            | noMatch =>
                exact ⟨o, by simp [checkPayment, hl, hp, ht, hk], rfl, rfl, rfl, rfl, rfl, rfl⟩
            | matched pa pc =>
                by_cases hg : pc = ord.currency ∧ amountWithinTol pa ord.amount
                · have hr : (checkPayment store token orderId (.matched pa pc)).2.1
                      = store.set orderId { ord with status := "PAID" } := by
                    simp [checkPayment, hl, hp, ht, hg]
                  by_cases hk2 : orderId = k
                  · subst hk2
                    rw [hl] at hk
                    injection hk with hoo
                    subst hoo
                    exact ⟨{ ord with status := "PAID" },
                      by rw [hr]; exact Store.lookup_set_self _ _ _,
                      rfl, rfl, rfl, rfl, rfl, rfl⟩
                  · refine ⟨o, ?_, rfl, rfl, rfl, rfl, rfl, rfl⟩
                    rw [hr, Store.lookup_set_ne _ _ _ _ hk2]
                    exact hk
                · exact ⟨o, by simp [checkPayment, hl, hp, ht, hg, hk],
                    rfl, rfl, rfl, rfl, rfl, rfl⟩
  · intro store token orderId resp k o hk
    cases hl : store.lookup orderId with
    | none => exact ⟨o, by simp [checkPaymentTs, hl, hk], rfl, rfl, rfl, rfl, rfl⟩
    | some ord =>
        by_cases hp : ord.status = "PAID"
        · exact ⟨o, by simp [checkPaymentTs, hl, hp, hk], rfl, rfl, rfl, rfl, rfl⟩
        · by_cases ht : token = "" ∨ token = "YOUR_BAKONG_API_TOKEN_HERE"
          · exact ⟨o, by simp [checkPaymentTs, hl, hp, ht, hk], rfl, rfl, rfl, rfl, rfl⟩
          · cases resp with
            | transportError =>
                exact ⟨o, by simp [checkPaymentTs, hl, hp, ht, hk], rfl, rfl, rfl, rfl, rfl⟩
            | noMatch =>
                exact ⟨o, by simp [checkPaymentTs, hl, hp, ht, hk], rfl, rfl, rfl, rfl, rfl⟩
            | matched pa pc =>
                by_cases hg : pc = ord.currency ∧ amountWithinTol pa ord.amount
                · have hr : (checkPaymentTs store token orderId (.matched pa pc)).2.1
                      = store.set orderId { ord with status := "PAID" } := by
                    simp [checkPaymentTs, hl, hp, ht, hg]
                  by_cases hk2 : orderId = k
                  · subst hk2
                    rw [hl] at hk
                    injection hk with hoo
                    subst hoo
                    exact ⟨{ ord with status := "PAID" },
                      by rw [hr]; exact Store.lookup_set_self _ _ _,
                      rfl, rfl, rfl, rfl, rfl⟩
                  · refine ⟨o, ?_, rfl, rfl, rfl, rfl, rfl⟩
                    rw [hr, Store.lookup_set_ne _ _ _ _ hk2]
                    exact hk
                · exact ⟨o, by simp [checkPaymentTs, hl, hp, ht, hg, hk],
                    rfl, rfl, rfl, rfl, rfl⟩

/-- Witness for C10: a check that flips a PENDING order to PAID (matched
settlement, matching amount and currency) preserves every other stored
field in both variants. -/
theorem checkPayment_frame_witness :
    (∃ o2 : Order,
        (checkPayment ⟨[("CAFE-1", ⟨"CAFE-1", 5, "USD", "qr", "m5", "PENDING", "t"⟩)]⟩
            "tok" "CAFE-1" (.matched (.num 5) "USD")).2.1.lookup "CAFE-1" = some o2 ∧
        o2.orderId = "CAFE-1" ∧ o2.amount = 5 ∧ o2.currency = "USD" ∧
        o2.md5 = "m5" ∧ o2.qrString = "qr" ∧ o2.createdAt = "t")
    ∧ (∃ o2 : OrderTs,
        (checkPaymentTs ⟨[("CAFE-1", ⟨"CAFE-1", 5, "USD", "qr", "m5", "PENDING"⟩)]⟩
            "tok" "CAFE-1" (.matched (.num 5) "USD")).2.1.lookup "CAFE-1" = some o2 ∧
        o2.orderId = "CAFE-1" ∧ o2.amount = 5 ∧ o2.currency = "USD" ∧
        o2.md5 = "m5" ∧ o2.khqrString = "qr") :=
  ⟨checkPayment_frame.1 ⟨[("CAFE-1", ⟨"CAFE-1", 5, "USD", "qr", "m5", "PENDING", "t"⟩)]⟩
      "tok" "CAFE-1" (.matched (.num 5) "USD") "CAFE-1"
      ⟨"CAFE-1", 5, "USD", "qr", "m5", "PENDING", "t"⟩ rfl,
   checkPayment_frame.2 ⟨[("CAFE-1", ⟨"CAFE-1", 5, "USD", "qr", "m5", "PENDING"⟩)]⟩
      "tok" "CAFE-1" (.matched (.num 5) "USD") "CAFE-1"
      ⟨"CAFE-1", 5, "USD", "qr", "m5", "PENDING"⟩ rfl⟩

/-- C3 counterexample: order creation does not check for an existing
id — `ORDERS[orderId] = {...}` overwrites.  A creation whose generated
id collides with a registered PAID order replaces it with a fresh
PENDING entry, so the status stored at that key transitions
PAID→PENDING, refuting the claim as stated (creation is one of the
claimed operations and id collisions are reachable, the id being
clock+randomness driven). -/
theorem createKhqr_reverts_paid_on_collision :
    (((⟨[("CAFE-A", ⟨"CAFE-A", 2, "USD", "qr0", "m0", "PAID", "t0"⟩)]⟩ : Store Order).lookup
        "CAFE-A").map Order.status = some "PAID")
    ∧ (((createKhqr ⟨[("CAFE-A", ⟨"CAFE-A", 2, "USD", "qr0", "m0", "PAID", "t0"⟩)]⟩
          (.num 2) none "USD" "me@aclb" "CAFE-A" (.success "qr1" "m1") "t1").2.lookup
            "CAFE-A").map Order.status = some "PENDING") := by decide

/-- C3 (amended): per stored key, a status check either leaves the
status unchanged or transitions it PENDING→PAID (given every stored
status is PENDING or PAID), and a creation whose generated id is fresh
either leaves a key's status unchanged or populates an empty key with
PENDING; PAID never reverts except through the id-collision overwrite
exhibited separately. -/
theorem status_monotone :
    (∀ (store : Store Order) (token orderId : String) (resp : BakongResp) (k : String),
      statusesWF store →
      ((((checkPayment store token orderId resp).2.1.lookup k).map Order.status
          = (store.lookup k).map Order.status)
        ∨ ((store.lookup k).map Order.status = some "PENDING"
            ∧ ((checkPayment store token orderId resp).2.1.lookup k).map Order.status
                = some "PAID")))
    ∧ (∀ (store : Store Order) (amount : JSNum) (currency : Option String)
        (defaultCurrency accountId orderId : String) (codec : CodecResult)
        (createdAt : String) (k : String),
      store.lookup orderId = none →
      ((((createKhqr store amount currency defaultCurrency accountId orderId codec
            createdAt).2.lookup k).map Order.status = (store.lookup k).map Order.status)
        ∨ ((store.lookup k).map Order.status = none
            ∧ ((createKhqr store amount currency defaultCurrency accountId orderId codec
                  createdAt).2.lookup k).map Order.status = some "PENDING"))) := by
  constructor
  · intro store token orderId resp k hwf
    cases hl : store.lookup orderId with
    | none => exact Or.inl (by simp [checkPayment, hl])
    | some ord =>
        by_cases hp : ord.status = "PAID"
        · exact Or.inl (by simp [checkPayment, hl, hp])
        · by_cases ht : token = "" ∨ token = "YOUR_BAKONG_API_TOKEN_HERE"
          · exact Or.inl (by simp [checkPayment, hl, hp, ht])
          · cases resp with
            | transportError => exact Or.inl (by simp [checkPayment, hl, hp, ht])
            | noMatch => exact Or.inl (by simp [checkPayment, hl, hp, ht])
            | matched pa pc =>
                by_cases hg : pc = ord.currency ∧ amountWithinTol pa ord.amount
                · have hr : (checkPayment store token orderId (.matched pa pc)).2.1
                      = store.set orderId { ord with status := "PAID" } := by
                    simp [checkPayment, hl, hp, ht, hg]
                  have hpend : ord.status = "PENDING" := by
                    rcases hwf (orderId, ord) (Store.lookupList_mem _ _ _ hl) with h | h
                    · exact h
                    · exact absurd h hp
                  by_cases hk2 : orderId = k
                  · subst hk2
                    refine Or.inr ⟨by rw [hl]; simp [hpend], ?_⟩
                    rw [hr, Store.lookup_set_self]
                    rfl
                  · exact Or.inl (by rw [hr, Store.lookup_set_ne _ _ _ _ hk2])
                · exact Or.inl (by simp [checkPayment, hl, hp, ht, hg])
  · intro store amount currency defaultCurrency accountId orderId codec createdAt k hfresh
    by_cases h1 : amount.falsy ∨ amount.le0
    · exact Or.inl (by simp [createKhqr, h1])
    · by_cases h2 : accountId = "" ∨ jsIncludes accountId '@' = false
      · exact Or.inl (by simp [createKhqr, h1, h2])
      · cases codec with
        | failure => exact Or.inl (by simp [createKhqr, h1, h2])
        | success qr md5v =>
            have hr : (createKhqr store amount currency defaultCurrency accountId orderId
                  (.success qr md5v) createdAt).2
                = store.set orderId
                    ⟨orderId, amount.val, jsToUpper (jsOrElse currency defaultCurrency),
                     qr, md5v, "PENDING", createdAt⟩ := by
              simp [createKhqr, h1, h2]
            by_cases hk2 : orderId = k
            · subst hk2
              refine Or.inr ⟨by rw [hfresh]; rfl, ?_⟩
              rw [hr, Store.lookup_set_self]
              rfl
            · exact Or.inl (by rw [hr, Store.lookup_set_ne _ _ _ _ hk2])

/-- Witness for C3 (amended): a matched settlement flips a PENDING
order to PAID (right disjunct), and a fresh-id creation populates an
empty key with PENDING (right disjunct). -/
theorem status_monotone_witness :
    ((((checkPayment ⟨[("CAFE-1", ⟨"CAFE-1", 5, "USD", "qr", "m5", "PENDING", "t"⟩)]⟩
          "tok" "CAFE-1" (.matched (.num 5) "USD")).2.1.lookup "CAFE-1").map Order.status
        = ((⟨[("CAFE-1", ⟨"CAFE-1", 5, "USD", "qr", "m5", "PENDING", "t"⟩)]⟩ :
              Store Order).lookup "CAFE-1").map Order.status)
      ∨ (((⟨[("CAFE-1", ⟨"CAFE-1", 5, "USD", "qr", "m5", "PENDING", "t"⟩)]⟩ :
              Store Order).lookup "CAFE-1").map Order.status = some "PENDING"
          ∧ ((checkPayment ⟨[("CAFE-1", ⟨"CAFE-1", 5, "USD", "qr", "m5", "PENDING", "t"⟩)]⟩
              "tok" "CAFE-1" (.matched (.num 5) "USD")).2.1.lookup "CAFE-1").map Order.status
              = some "PAID")) ∧
    ((((createKhqr ⟨[]⟩ (.num 5) none "USD" "me@aclb" "CAFE-1" (.success "qr" "m5")
          "t").2.lookup "CAFE-1").map Order.status
        = ((⟨[]⟩ : Store Order).lookup "CAFE-1").map Order.status)
      ∨ (((⟨[]⟩ : Store Order).lookup "CAFE-1").map Order.status = none
          ∧ ((createKhqr ⟨[]⟩ (.num 5) none "USD" "me@aclb" "CAFE-1" (.success "qr" "m5")
              "t").2.lookup "CAFE-1").map Order.status = some "PENDING")) :=
  ⟨status_monotone.1 ⟨[("CAFE-1", ⟨"CAFE-1", 5, "USD", "qr", "m5", "PENDING", "t"⟩)]⟩
      "tok" "CAFE-1" (.matched (.num 5) "USD") "CAFE-1" (by decide),
   status_monotone.2 ⟨[]⟩ (.num 5) none "USD" "me@aclb" "CAFE-1" (.success "qr" "m5")
      "t" "CAFE-1" rfl⟩

/-- C5 counterexample: `server.js` performs no currency validation.  A
creation request with currency "eur" — outside {USD, KHR} — does not
fail with an InvalidCurrency error: it creates and stores an order with
currency "EUR" (and silently encodes it with the USD currency code 840). -/
theorem createKhqr_accepts_unsupported_currency :
    createKhqr ⟨[]⟩ (.num 5) (some "eur") "USD" "me@aclb" "CAFE-1" (.success "qr" "m5") "t"
      = (.ok ⟨"CAFE-1", 5, "EUR", "qr", "m5", "PENDING", "t"⟩ 840,
         ⟨[("CAFE-1", ⟨"CAFE-1", 5, "EUR", "qr", "m5", "PENDING", "t"⟩)]⟩)
    ∧ ¬("EUR" = "USD" ∨ "EUR" = "KHR") := by decide

/-- C5 (amended): the ts-khqr variant (`part_003`) rejects any currency
outside {USD, KHR} (after uppercase normalization) with a 400 and
leaves the store unchanged, while the `server.js` variant accepts every
currency string when the other checks pass, storing it uppercased and
sending the codec the KHR code exactly when it equals "KHR" and the USD
code otherwise. -/
theorem currency_validation :
    (∀ (store : Store OrderTs) (amount : ℚ) (currency : Option String)
        (defaultCurrency accountId orderId : String) (khqrQr : Option String)
        (md5v : String),
      0 < amount →
      ¬(jsToUpper (jsOrElse currency defaultCurrency) = "USD"
          ∨ jsToUpper (jsOrElse currency defaultCurrency) = "KHR") →
      createKhqrTs store amount currency defaultCurrency accountId orderId khqrQr md5v
        = (.error 400 "Currency must be USD or KHR", store))
    ∧ (∀ (store : Store Order) (q : ℚ) (currency : Option String)
        (defaultCurrency accountId orderId qr md5v createdAt : String),
      0 < q → accountId ≠ "" → jsIncludes accountId '@' = true →
      createKhqr store (.num q) currency defaultCurrency accountId orderId
          (.success qr md5v) createdAt
        = (.ok ⟨orderId, q, jsToUpper (jsOrElse currency defaultCurrency), qr, md5v,
              "PENDING", createdAt⟩
            (if jsToUpper (jsOrElse currency defaultCurrency) = "KHR"
              then khqrCurrencyKhr else khqrCurrencyUsd),
           store.set orderId ⟨orderId, q, jsToUpper (jsOrElse currency defaultCurrency),
              qr, md5v, "PENDING", createdAt⟩)) := by
  constructor
  · intro store amount currency defaultCurrency accountId orderId khqrQr md5v hpos hcur
    have h1 : ¬(amount = 0 ∨ amount ≤ 0) := by
      push_neg
      exact ⟨hpos.ne', hpos⟩
    simp [createKhqrTs, h1, hcur]
  · intro store q currency defaultCurrency accountId orderId qr md5v createdAt hpos ha1 ha2
    have h1 : ¬((JSNum.num q).falsy ∨ (JSNum.num q).le0) := by
      simp only [JSNum.falsy, JSNum.le0]
      push_neg
      exact ⟨hpos.ne', hpos⟩
    have h2 : ¬(accountId = "" ∨ jsIncludes accountId '@' = false) := by
      push_neg
      exact ⟨ha1, by simp [ha2]⟩
    simp [createKhqr, h1, h2, JSNum.val]

/-- Witness for C5 (amended): "EUR" is rejected by the ts-khqr variant;
"khr" is accepted by `server.js`, stored as "KHR" and encoded with
currency code 116. -/
theorem currency_validation_witness :
    createKhqrTs ⟨[]⟩ 5 (some "EUR") "USD" "me@aclb" "CAFE-1" (some "qr") "m5"
      = (.error 400 "Currency must be USD or KHR", ⟨[]⟩)
    ∧ createKhqr ⟨[]⟩ (.num 5) (some "khr") "USD" "me@aclb" "CAFE-1"
        (.success "qr" "m5") "t"
      = (.ok ⟨"CAFE-1", 5, "KHR", "qr", "m5", "PENDING", "t"⟩ khqrCurrencyKhr,
         ⟨[("CAFE-1", ⟨"CAFE-1", 5, "KHR", "qr", "m5", "PENDING", "t"⟩)]⟩) :=
  ⟨currency_validation.1 ⟨[]⟩ 5 (some "EUR") "USD" "me@aclb" "CAFE-1" (some "qr") "m5"
      (by norm_num) (by decide),
   currency_validation.2 ⟨[]⟩ 5 (some "khr") "USD" "me@aclb" "CAFE-1" "qr" "m5" "t"
      (by norm_num) (by decide) (by decide)⟩

/-- C6 counterexample: `server.js` does not round amounts for KHR — an
order created with currency KHR and the fractional amount 107/10 stores
the fractional amount itself (denominator 10), not a whole unit. -/
theorem createKhqr_khr_keeps_fractional_amount :
    ((createKhqr ⟨[]⟩ (.num (mkRat 107 10)) (some "KHR") "USD" "me@aclb" "CAFE-1"
        (.success "qr" "m5") "t").2.lookup "CAFE-1").map Order.amount
      = some (mkRat 107 10)
    ∧ (mkRat 107 10).den ≠ 1 := by decide

/-- C6 (amended): in the ts-khqr variant (`part_003`), a KHR order is
stored and encoded with `Math.round(amount)` — the nearest whole unit,
halves up — and the request is not rejected for being fractional; the
`server.js` variant stores the amount unrounded. -/
theorem createKhqrTs_rounds_khr (store : Store OrderTs) (amount : ℚ)
    (currency : Option String) (defaultCurrency accountId orderId qr md5v : String)
    (hamt : 0 < amount)
    (hcur : jsToUpper (jsOrElse currency defaultCurrency) = "KHR")
    (ha1 : accountId ≠ "") (ha2 : jsIncludes accountId '@' = true)
    (hqr : qr ≠ "") :
    createKhqrTs store amount currency defaultCurrency accountId orderId (some qr) md5v
      = (.ok ⟨orderId, ((jsRound amount : ℤ) : ℚ), "KHR", qr, md5v, "PENDING"⟩,
         store.set orderId
           ⟨orderId, ((jsRound amount : ℤ) : ℚ), "KHR", qr, md5v, "PENDING"⟩)
    ∧ (∃ n : ℤ, ((jsRound amount : ℤ) : ℚ) = (n : ℚ)) := by
  have h1 : ¬(amount = 0 ∨ amount ≤ 0) := by
    push_neg
    exact ⟨hamt.ne', hamt⟩
  have h2 : ¬(accountId = "" ∨ jsIncludes accountId '@' = false) := by
    push_neg
    exact ⟨ha1, by simp [ha2]⟩
  have h3 : jsOrElse (some qr) "" = qr := by simp [jsOrElse, hqr]
  refine ⟨?_, ⟨jsRound amount, rfl⟩⟩
  simp [createKhqrTs, h1, h2, hcur, h3, hqr]

/-- Witness for C6: a KHR order created with amount 107/10 (the JS
body `10.7`) is accepted and stored with the whole amount 11. -/
theorem createKhqrTs_rounds_khr_witness :
    createKhqrTs ⟨[]⟩ ((107 : ℚ)/10) (some "KHR") "USD" "me@aclb" "CAFE-1"
        (some "qr") "m5"
      = (.ok ⟨"CAFE-1", (11 : ℚ), "KHR", "qr", "m5", "PENDING"⟩,
         ⟨[("CAFE-1", ⟨"CAFE-1", (11 : ℚ), "KHR", "qr", "m5", "PENDING"⟩)]⟩) := by
  have h := (createKhqrTs_rounds_khr ⟨[]⟩ ((107 : ℚ)/10) (some "KHR") "USD" "me@aclb"
      "CAFE-1" "qr" "m5" (by norm_num) (by decide) (by decide) (by decide) (by decide)).1
  have hfl : jsRound ((107 : ℚ)/10) = 11 := by
    show ⌊(107 : ℚ)/10 + 1/2⌋ = 11
    rw [Int.floor_eq_iff]
    constructor <;> norm_num
  rw [hfl] at h
  exact h

/-- C8 counterexample: registering an order whose id already exists in
the ledger does not fail with a DuplicateOrder error: the creation
succeeds and `ORDERS[orderId] = {...}` replaces the existing (here
PAID) entry with the new one. -/
theorem createKhqr_overwrites_existing :
    createKhqr ⟨[("CAFE-A", ⟨"CAFE-A", 2, "USD", "qr0", "m0", "PAID", "t0"⟩)]⟩
        (.num 3) (some "USD") "USD" "me@aclb" "CAFE-A" (.success "qr1" "m1") "t1"
      = (.ok ⟨"CAFE-A", 3, "USD", "qr1", "m1", "PENDING", "t1"⟩ 840,
         ⟨[("CAFE-A", ⟨"CAFE-A", 3, "USD", "qr1", "m1", "PENDING", "t1"⟩)]⟩)
    ∧ (⟨"CAFE-A", 3, "USD", "qr1", "m1", "PENDING", "t1"⟩ : Order)
        ≠ ⟨"CAFE-A", 2, "USD", "qr0", "m0", "PAID", "t0"⟩ := by decide

/-- C8 (amended): registration is an unconditional keyed insert — for
any valid creation request the new order is written at its id whether
or not an entry with that id already exists (replacing it in place if
so); no DuplicateOrder check exists. -/
theorem register_overwrites (store : Store Order) (q : ℚ) (currency : Option String)
    (defaultCurrency accountId orderId qr md5v createdAt : String)
    (hamt : 0 < q) (ha1 : accountId ≠ "") (ha2 : jsIncludes accountId '@' = true) :
    ∃ o : Order,
      (createKhqr store (.num q) currency defaultCurrency accountId orderId
          (.success qr md5v) createdAt).2 = store.set orderId o
      ∧ (∃ enc : Nat,
          (createKhqr store (.num q) currency defaultCurrency accountId orderId
            (.success qr md5v) createdAt).1 = .ok o enc)
      ∧ (store.set orderId o).lookup orderId = some o := by
  have h1 : ¬((JSNum.num q).falsy ∨ (JSNum.num q).le0) := by
    simp only [JSNum.falsy, JSNum.le0]
    push_neg
    exact ⟨hamt.ne', hamt⟩
  have h2 : ¬(accountId = "" ∨ jsIncludes accountId '@' = false) := by
    push_neg
    exact ⟨ha1, by simp [ha2]⟩
  refine ⟨⟨orderId, q, jsToUpper (jsOrElse currency defaultCurrency), qr, md5v,
      "PENDING", createdAt⟩, ?_, ?_, Store.lookup_set_self _ _ _⟩
  · simp [createKhqr, h1, h2, JSNum.val]
  · exact ⟨if jsToUpper (jsOrElse currency defaultCurrency) = "KHR"
        then khqrCurrencyKhr else khqrCurrencyUsd,
      by simp [createKhqr, h1, h2, JSNum.val]⟩

/-- Witness for C8: creating over an occupied id succeeds and rewrites
that key. -/
theorem register_overwrites_witness :
    ∃ o : Order,
      (createKhqr ⟨[("CAFE-A", ⟨"CAFE-A", 2, "USD", "qr0", "m0", "PAID", "t0"⟩)]⟩
          (.num 3) (some "USD") "USD" "me@aclb" "CAFE-A"
          (.success "qr1" "m1") "t1").2
        = (⟨[("CAFE-A", ⟨"CAFE-A", 2, "USD", "qr0", "m0", "PAID", "t0"⟩)]⟩ :
            Store Order).set "CAFE-A" o
      ∧ (∃ enc : Nat,
          (createKhqr ⟨[("CAFE-A", ⟨"CAFE-A", 2, "USD", "qr0", "m0", "PAID", "t0"⟩)]⟩
            (.num 3) (some "USD") "USD" "me@aclb" "CAFE-A"
            (.success "qr1" "m1") "t1").1 = .ok o enc)
      ∧ ((⟨[("CAFE-A", ⟨"CAFE-A", 2, "USD", "qr0", "m0", "PAID", "t0"⟩)]⟩ :
            Store Order).set "CAFE-A" o).lookup "CAFE-A" = some o :=
  register_overwrites ⟨[("CAFE-A", ⟨"CAFE-A", 2, "USD", "qr0", "m0", "PAID", "t0"⟩)]⟩
    3 (some "USD") "USD" "me@aclb" "CAFE-A" "qr1" "m1" "t1"
    (by norm_num) (by decide) (by decide)

/-- C9 counterexample: the MisconfiguredMerchant validation failure
(account id unset) is returned by `server.js` with HTTP status 500 —
a 5xx, not a 4xx as claimed. -/
theorem misconfigured_merchant_is_500 :
    (createKhqr ⟨[]⟩ (.num 5) none "USD" "" "CAFE-1" (.success "qr" "m5") "t").1
      = .error 500
          "BAKONG_ACCOUNT_ID is not set or invalid. Example: yourid@aclb in .env"
    ∧ ¬(400 ≤ 500 ∧ 500 < 500) := by decide

/-- C9 (amended): InvalidAmount is returned as 400 with a
human-readable message in both variants, InvalidCurrency as 400 in the
ts-khqr variant (the only variant that has it), but
MisconfiguredMerchant (account id empty or lacking the "@" separator)
is returned as 500 in both variants. -/
theorem validation_error_statuses :
    (∀ (store : Store Order) (amount : JSNum) (currency : Option String)
        (defaultCurrency accountId orderId : String) (codec : CodecResult)
        (createdAt : String),
      amount = JSNum.nan ∨ amount.le0 →
      createKhqr store amount currency defaultCurrency accountId orderId codec createdAt
        = (.error 400 "Invalid amount (must be > 0)", store))
    ∧ (∀ (store : Store OrderTs) (amount : ℚ) (currency : Option String)
        (defaultCurrency accountId orderId : String) (khqrQr : Option String)
        (md5v : String),
      amount ≤ 0 →
      createKhqrTs store amount currency defaultCurrency accountId orderId khqrQr md5v
        = (.error 400 "Invalid amount", store))
    ∧ (∀ (store : Store Order) (amount : JSNum) (currency : Option String)
        (defaultCurrency accountId orderId : String) (codec : CodecResult)
        (createdAt : String),
      ¬(amount.falsy ∨ amount.le0) →
      (accountId = "" ∨ jsIncludes accountId '@' = false) →
      createKhqr store amount currency defaultCurrency accountId orderId codec createdAt
        = (.error 500
            "BAKONG_ACCOUNT_ID is not set or invalid. Example: yourid@aclb in .env",
           store))
    ∧ (∀ (store : Store OrderTs) (amount : ℚ) (currency : Option String)
        (defaultCurrency accountId orderId : String) (khqrQr : Option String)
        (md5v : String),
      0 < amount →
      ¬(jsToUpper (jsOrElse currency defaultCurrency) = "USD"
          ∨ jsToUpper (jsOrElse currency defaultCurrency) = "KHR") →
      createKhqrTs store amount currency defaultCurrency accountId orderId khqrQr md5v
        = (.error 400 "Currency must be USD or KHR", store))
    ∧ (∀ (store : Store OrderTs) (amount : ℚ) (currency : Option String)
        (defaultCurrency accountId orderId : String) (khqrQr : Option String)
        (md5v : String),
      0 < amount →
      (jsToUpper (jsOrElse currency defaultCurrency) = "USD"
          ∨ jsToUpper (jsOrElse currency defaultCurrency) = "KHR") →
      (accountId = "" ∨ jsIncludes accountId '@' = false) →
      createKhqrTs store amount currency defaultCurrency accountId orderId khqrQr md5v
        = (.error 500
            "BAKONG_ACCOUNT_ID is not set correctly in .env (e.g. myname@aclb)",
           store)) := by
  refine ⟨?_, ?_, ?_, ?_, ?_⟩
  · intro store amount currency defaultCurrency accountId orderId codec createdAt h
    have hcond : amount.falsy ∨ amount.le0 := by
      rcases h with h | h
      · exact Or.inl (by rw [h]; trivial)
      · exact Or.inr h
    unfold createKhqr
    rw [if_pos hcond]
  · intro store amount currency defaultCurrency accountId orderId khqrQr md5v h
    unfold createKhqrTs
    rw [if_pos (Or.inr h)]
  · intro store amount currency defaultCurrency accountId orderId codec createdAt h1 h2
    simp [createKhqr, h1, h2]
  · intro store amount currency defaultCurrency accountId orderId khqrQr md5v hpos hcur
    have h1 : ¬(amount = 0 ∨ amount ≤ 0) := by
      push_neg
      exact ⟨hpos.ne', hpos⟩
    simp [createKhqrTs, h1, hcur]
  · intro store amount currency defaultCurrency accountId orderId khqrQr md5v hpos hcur h2
    have h1 : ¬(amount = 0 ∨ amount ≤ 0) := by
      push_neg
      exact ⟨hpos.ne', hpos⟩
    have hcur2 : ¬¬(jsToUpper (jsOrElse currency defaultCurrency) = "USD"
        ∨ jsToUpper (jsOrElse currency defaultCurrency) = "KHR") := not_not.mpr hcur
    simp [createKhqrTs, h1, hcur2, h2]

/-- Witness for C9 (amended): each of the five validation paths at a
concrete input. -/
theorem validation_error_statuses_witness :
    createKhqr ⟨[]⟩ (.num 0) none "USD" "me@aclb" "CAFE-1" (.success "qr" "m5") "t"
      = (.error 400 "Invalid amount (must be > 0)", ⟨[]⟩)
    ∧ createKhqrTs ⟨[]⟩ 0 (some "USD") "USD" "me@aclb" "CAFE-1" (some "qr") "m5"
      = (.error 400 "Invalid amount", ⟨[]⟩)
    ∧ createKhqr ⟨[]⟩ (.num 5) none "USD" "nosep" "CAFE-1" (.success "qr" "m5") "t"
      = (.error 500
          "BAKONG_ACCOUNT_ID is not set or invalid. Example: yourid@aclb in .env", ⟨[]⟩)
    ∧ createKhqrTs ⟨[]⟩ 5 (some "EUR") "USD" "me@aclb" "CAFE-1" (some "qr") "m5"
      = (.error 400 "Currency must be USD or KHR", ⟨[]⟩)
    ∧ createKhqrTs ⟨[]⟩ 5 (some "USD") "USD" "" "CAFE-1" (some "qr") "m5"
      = (.error 500
          "BAKONG_ACCOUNT_ID is not set correctly in .env (e.g. myname@aclb)", ⟨[]⟩) :=
  ⟨validation_error_statuses.1 ⟨[]⟩ (.num 0) none "USD" "me@aclb" "CAFE-1"
      (.success "qr" "m5") "t" (Or.inr (le_refl (0 : ℚ))),
   validation_error_statuses.2.1 ⟨[]⟩ 0 (some "USD") "USD" "me@aclb" "CAFE-1"
      (some "qr") "m5" (le_refl (0 : ℚ)),
   validation_error_statuses.2.2.1 ⟨[]⟩ (.num 5) none "USD" "nosep" "CAFE-1"
      (.success "qr" "m5") "t" (by decide) (by decide),
   validation_error_statuses.2.2.2.1 ⟨[]⟩ 5 (some "EUR") "USD" "me@aclb" "CAFE-1"
      (some "qr") "m5" (by norm_num) (by decide),
   validation_error_statuses.2.2.2.2 ⟨[]⟩ 5 (some "USD") "USD" "" "CAFE-1"
      (some "qr") "m5" (by norm_num) (by decide) (by decide)⟩

/-- C7 counterexample: "constructor" was never registered (the store is
empty), yet the status check does not answer OrderNotFound:
`ORDERS["constructor"]` is the truthy inherited
`Object.prototype.constructor`, so `!order` is false and the 404 branch
is skipped — in degraded mode the handler answers 200 PENDING, and with
a token it answers 200 with undefined fields. -/
theorem checkPaymentJs_prototype_id_not_404 :
    (⟨[]⟩ : Store Order).lookup "constructor" = none
    ∧ checkPaymentJs ⟨[]⟩ "" "constructor" .noMatch = (.pendingNoToken, ⟨[]⟩, false)
    ∧ (checkPaymentJs ⟨[]⟩ "tok" "constructor" (.matched (.num 5) "USD")).1
        = .checkedInherited
    ∧ CheckResultJs.pendingNoToken ≠ .notFound
    ∧ CheckResultJs.checkedInherited ≠ .notFound := by decide

/-- C7 (amended): the status check answers 404 `Order not found`
exactly for ids that are unregistered and not inherited
`Object.prototype` property names; on that branch the store is
untouched and the external collaborator is not contacted, and the
total embedding raises no fault.  For an unregistered inherited key
the truthy inherited value makes the handler skip the 404 branch. -/
theorem checkPaymentJs_notFound_iff (store : Store Order) (token orderId : String)
    (resp : BakongResp) :
    ((checkPaymentJs store token orderId resp).1 = .notFound
        ↔ (store.lookup orderId = none ∧ objectPrototypeKeys.contains orderId = false))
    ∧ (store.lookup orderId = none → objectPrototypeKeys.contains orderId = false →
        checkPaymentJs store token orderId resp = (.notFound, store, false))
    ∧ CheckResultJs.httpStatus .notFound = 404 := by
  cases hl : store.lookup orderId with
  | some o =>
      have hne : (checkPaymentJs store token orderId resp).1 ≠ .notFound := by
        simp only [checkPaymentJs, jsGet, hl]
        by_cases h1 : o.status = "PAID"
        · simp [h1]
        · by_cases h2 : token = "" ∨ token = "YOUR_BAKONG_API_TOKEN_HERE"
          · simp [h1, h2]
          · cases resp with
            | transportError => simp [h1, h2]
            | noMatch => simp [h1, h2]
            | matched pa pc =>
                by_cases h3 : pc = o.currency ∧ amountWithinTol pa o.amount
                · simp [h1, h2, h3]
                · simp [h1, h2, h3]
      exact ⟨iff_of_false hne (by simp [hl]),
        fun h => absurd h (by simp [hl]), rfl⟩
  | none =>
      by_cases hproto : objectPrototypeKeys.contains orderId = true
      · have hmem : orderId ∈ objectPrototypeKeys := by simpa using hproto
        have hne : (checkPaymentJs store token orderId resp).1 ≠ .notFound := by
          by_cases h2 : token = "" ∨ token = "YOUR_BAKONG_API_TOKEN_HERE"
          · simp [checkPaymentJs, jsGet, hl, hmem, h2]
          · cases resp with
            | transportError => simp [checkPaymentJs, jsGet, hl, hmem, h2]
            | noMatch => simp [checkPaymentJs, jsGet, hl, hmem, h2]
            | matched pa pc => simp [checkPaymentJs, jsGet, hl, hmem, h2]
        refine ⟨iff_of_false hne (by simp [hmem]), fun _ h2 => ?_, rfl⟩
        exact absurd hmem (by simpa using h2)
      · have hnmem : orderId ∉ objectPrototypeKeys := by simpa using hproto
        have hr : checkPaymentJs store token orderId resp = (.notFound, store, false) := by
          simp [checkPaymentJs, jsGet, hl, hnmem]
        refine ⟨iff_of_true (by rw [hr]) ⟨rfl, ?_⟩, fun _ _ => hr, rfl⟩
        simpa using hnmem

/-- Witness for C7: an empty store and an id outside the inherited
prototype keys answer 404 with the store untouched and no external
call. -/
theorem checkPaymentJs_notFound_iff_witness :
    (checkPaymentJs ⟨[]⟩ "tok" "CAFE-1" .noMatch).1 = .notFound
    ∧ checkPaymentJs ⟨[]⟩ "tok" "CAFE-1" .noMatch = (.notFound, ⟨[]⟩, false) :=
  ⟨(checkPaymentJs_notFound_iff ⟨[]⟩ "tok" "CAFE-1" .noMatch).1.mpr ⟨rfl, by decide⟩,
   (checkPaymentJs_notFound_iff ⟨[]⟩ "tok" "CAFE-1" .noMatch).2.1 rfl (by decide)⟩
